import Mathlib

/-!
Shallow embedding of the Blattella germanica / indoxacarb population model
(`src/app.py`). The engine consists of `environmental_factor` and
`simulate_population`: a discrete-time compartmental recurrence over four
compartments (Susceptible `S`, early-intoxicated `I1`, late-intoxicated `I2`,
cumulative dead `D`) with a lag history of daily uptakes and two fixed integer
delays. Python floats are modelled as real numbers; the per-day arrays become
functions `ℕ → ℝ`, and the returned NumPy arrays (of length `days`) become
lists obtained by mapping those functions over `List.range days`.
-/

/-- Environmental factor (src/app.py lines 26-29):
`max(0, 1 - |temp - 30| / 20) * max(0, 1 - |humidity - 70| / 40)`. -/
noncomputable def environmental_factor (temp humidity : ℝ) : ℝ :=
  max 0 (1 - |temp - 30| / 20) * max 0 (1 - |humidity - 70| / 40)

/-- The five arguments of `simulate_population` (src/app.py line 35). -/
@[ext]
structure Params where
  days : ℕ
  initial_pop : ℝ
  temp : ℝ
  humidity : ℝ
  reinfestation_rate : ℝ

/-- `birth_rate = 0.04` (src/app.py line 44). -/
noncomputable def birth_rate : ℝ := 0.04

/-- `natural_mortality = 0.01` (src/app.py line 45). -/
noncomputable def natural_mortality : ℝ := 0.01

/-- `exposure_rate = 0.05` (src/app.py line 46). -/
noncomputable def exposure_rate : ℝ := 0.05

/-- `saturation_alpha = 0.75` (src/app.py line 47). -/
noncomputable def saturation_alpha : ℝ := 0.75

/-- `stop_feed_delay = 2` days (src/app.py line 49). -/
def stop_feed_delay : ℕ := 2

/-- `lethal_delay = 4` days (src/app.py line 50). -/
def lethal_delay : ℕ := 4

/-- The per-run environmental factor `env` (src/app.py line 52), computed once
from the run's temperature and humidity; it takes no day index. -/
noncomputable def env (p : Params) : ℝ :=
  environmental_factor p.temp p.humidity

/-- The saturating-ingestion uptake applied to the previous susceptible count
(src/app.py lines 66-67): `new_intox = min(exposure_rate * x ** 0.75, x)`.
The Python float power on a non-negative base is real `rpow`. -/
noncomputable def uptake (x : ℝ) : ℝ :=
  min (exposure_rate * x ^ saturation_alpha) x

/-- The conditional reinfestation term (src/app.py lines 81-84):
`reinfestation_rate * S[d-1]` when `S[d-1] < 25`, else `0`. -/
noncomputable def immigration (p : Params) (x : ℝ) : ℝ :=
  if x < 25 then p.reinfestation_rate * x else 0

/-- Susceptible series (src/app.py lines 60, 87). `S 0 = initial_pop`; for
`d ≥ 1`, `S d = max 0 (S (d-1) + births - new_intox - natural_deaths
+ immigration)`, where every flow term is a function of `S (d-1)` only. -/
noncomputable def S (p : Params) : ℕ → ℝ
  | 0 => p.initial_pop
  | d + 1 =>
      max 0 (S p d + S p d * birth_rate * env p - uptake (S p d)
        - S p d * natural_mortality + immigration p (S p d))

/-- The lag history of daily uptakes (src/app.py lines 61, 68): entry `0` is
never written (stays `0`); entry `d ≥ 1` holds `new_intox` of day `d`. -/
noncomputable def intox_history (p : Params) (d : ℕ) : ℝ :=
  if d = 0 then 0 else uptake (S p (d - 1))

/-- Transition flow into the late-intoxicated compartment (src/app.py
line 77): `intox_history[d - stop_feed_delay] if d >= stop_feed_delay else 0`. -/
noncomputable def to_I2 (p : Params) (d : ℕ) : ℝ :=
  if stop_feed_delay ≤ d then intox_history p (d - stop_feed_delay) else 0

/-- Toxic death flow (src/app.py line 78):
`intox_history[d - lethal_delay] if d >= lethal_delay else 0`. -/
noncomputable def toxic_deaths (p : Params) (d : ℕ) : ℝ :=
  if lethal_delay ≤ d then intox_history p (d - lethal_delay) else 0

/-- Early-intoxicated series (src/app.py lines 56, 88). -/
noncomputable def I1 (p : Params) : ℕ → ℝ
  | 0 => 0
  | d + 1 => max 0 (I1 p d + intox_history p (d + 1) - to_I2 p (d + 1))

/-- Late-intoxicated series (src/app.py lines 57, 89). -/
noncomputable def I2 (p : Params) : ℕ → ℝ
  | 0 => 0
  | d + 1 => max 0 (I2 p d + to_I2 p (d + 1) - toxic_deaths p (d + 1))

/-- Cumulative dead series (src/app.py lines 58, 90); no clamp is applied. -/
noncomputable def D (p : Params) : ℕ → ℝ
  | 0 => 0
  | d + 1 => D p d + toxic_deaths p (d + 1)

/-- Active population `N_active = S + I1` (src/app.py line 92). -/
noncomputable def N_active (p : Params) (d : ℕ) : ℝ :=
  S p d + I1 p d

/-- The five series `(N_active, S, I1, I2, D)`, each of length `days`,
returned by a run that reaches line 94 of src/app.py. For `days = 0` the
source never reaches the return: the day-0 seeding write `S[0]` on the empty
`np.zeros(0)` array raises IndexError first; that error path is modelled by
the fallible entry point `simulate_population` below, while this definition
describes the successful run (every `days ≥ 1`). -/
noncomputable def run_simulation (p : Params) :
    List ℝ × List ℝ × List ℝ × List ℝ × List ℝ :=
  ((List.range p.days).map (N_active p),
   (List.range p.days).map (S p),
   (List.range p.days).map (I1 p),
   (List.range p.days).map (I2 p),
   (List.range p.days).map (D p))

lemma S_zero (p : Params) : S p 0 = p.initial_pop := rfl

lemma S_succ (p : Params) (d : ℕ) :
    S p (d + 1) =
      max 0 (S p d + S p d * birth_rate * env p - uptake (S p d)
        - S p d * natural_mortality + immigration p (S p d)) := rfl

lemma I1_succ (p : Params) (d : ℕ) :
    I1 p (d + 1) = max 0 (I1 p d + intox_history p (d + 1) - to_I2 p (d + 1)) := rfl

lemma I2_succ (p : Params) (d : ℕ) :
    I2 p (d + 1) = max 0 (I2 p d + to_I2 p (d + 1) - toxic_deaths p (d + 1)) := rfl

lemma D_succ (p : Params) (d : ℕ) :
    D p (d + 1) = D p d + toxic_deaths p (d + 1) := rfl

lemma exposure_rate_nonneg : (0 : ℝ) ≤ exposure_rate := by
  norm_num [exposure_rate]

lemma uptake_nonneg {x : ℝ} (hx : 0 ≤ x) : 0 ≤ uptake x :=
  le_min (mul_nonneg exposure_rate_nonneg (Real.rpow_nonneg hx _)) hx

lemma S_nonneg (p : Params) (h0 : 0 ≤ p.initial_pop) : ∀ d, 0 ≤ S p d
  | 0 => h0
  | d + 1 => le_max_left 0 _

lemma intox_history_nonneg (p : Params) (h0 : 0 ≤ p.initial_pop) (d : ℕ) :
    0 ≤ intox_history p d := by
  unfold intox_history
  by_cases hd : d = 0
  · simp [hd]
  · simpa [hd] using uptake_nonneg (S_nonneg p h0 (d - 1))

lemma to_I2_nonneg (p : Params) (h0 : 0 ≤ p.initial_pop) (d : ℕ) :
    0 ≤ to_I2 p d := by
  unfold to_I2
  by_cases hd : stop_feed_delay ≤ d
  · simpa [hd] using intox_history_nonneg p h0 (d - stop_feed_delay)
  · simp [hd]

lemma toxic_deaths_nonneg (p : Params) (h0 : 0 ≤ p.initial_pop) (d : ℕ) :
    0 ≤ toxic_deaths p d := by
  unfold toxic_deaths
  by_cases hd : lethal_delay ≤ d
  · simpa [hd] using intox_history_nonneg p h0 (d - lethal_delay)
  · simp [hd]

lemma I1_nonneg (p : Params) : ∀ d, 0 ≤ I1 p d
  | 0 => le_refl 0
  | d + 1 => le_max_left 0 _

lemma I2_nonneg (p : Params) : ∀ d, 0 ≤ I2 p d
  | 0 => le_refl 0
  | d + 1 => le_max_left 0 _

lemma D_nonneg (p : Params) (h0 : 0 ≤ p.initial_pop) : ∀ d, 0 ≤ D p d
  | 0 => le_refl 0
  | d + 1 => add_nonneg (D_nonneg p h0 d) (toxic_deaths_nonneg p h0 (d + 1))

/-- A concrete parameter set matching the UI defaults (src/app.py lines
102-116): 60 days, 500 individuals, 30 °C, 70 % humidity, rate 0.002. -/
noncomputable def pDemo : Params := ⟨60, 500, 30, 70, 0.002⟩

lemma pDemo_days : pDemo.days = 60 := rfl

lemma pDemo_initial_pop : pDemo.initial_pop = 500 := rfl

/-- C1: for every valid parameter set (positive horizon, non-negative initial
population) and every day index `d < days`, each of the four compartment
series values `S d`, `I1 d`, `I2 d`, `D d` is non-negative. -/
theorem C1_compartments_nonneg (p : Params) (hdays : 0 < p.days)
    (h0 : 0 ≤ p.initial_pop) (d : ℕ) (hd : d < p.days) :
    0 ≤ S p d ∧ 0 ≤ I1 p d ∧ 0 ≤ I2 p d ∧ 0 ≤ D p d :=
  ⟨S_nonneg p h0 d, I1_nonneg p d, I2_nonneg p d, D_nonneg p h0 d⟩

/-- C1 witness: the theorem applied at the default parameters and day 3. -/
theorem C1_witness :
    0 < pDemo.days ∧ 0 ≤ pDemo.initial_pop ∧ 3 < pDemo.days ∧
      (0 ≤ S pDemo 3 ∧ 0 ≤ I1 pDemo 3 ∧ 0 ≤ I2 pDemo 3 ∧ 0 ≤ D pDemo 3) :=
  ⟨by norm_num [pDemo], by norm_num [pDemo], by norm_num [pDemo],
    C1_compartments_nonneg pDemo (by norm_num [pDemo]) (by norm_num [pDemo]) 3
      (by norm_num [pDemo])⟩

/-- C2: for every valid parameter set the cumulative dead series is
non-decreasing: `D (d-1) ≤ D d` for every day `1 ≤ d < days`. -/
theorem C2_dead_nondecreasing (p : Params) (h0 : 0 ≤ p.initial_pop)
    (d : ℕ) (hd : 1 ≤ d) (hdays : d < p.days) :
    D p (d - 1) ≤ D p d := by
  obtain ⟨e, rfl⟩ : ∃ e, d = e + 1 := ⟨d - 1, (Nat.succ_pred_eq_of_pos hd).symm⟩
  rw [D_succ, Nat.add_sub_cancel]
  exact le_add_of_nonneg_right (toxic_deaths_nonneg p h0 (e + 1))

/-- C2 witness: the theorem applied at the default parameters and day 5. -/
theorem C2_witness :
    0 ≤ pDemo.initial_pop ∧ 1 ≤ 5 ∧ 5 < pDemo.days ∧ D pDemo 4 ≤ D pDemo 5 :=
  ⟨by norm_num [pDemo], by norm_num, by norm_num [pDemo],
    C2_dead_nondecreasing pDemo (by norm_num [pDemo]) 5 (by norm_num)
      (by norm_num [pDemo])⟩

/-- C3: delay warm-up correctness. The transition-to-late flow is `0` for
`d < stop_feed_delay` and the toxic-death flow is `0` for `d < lethal_delay`;
past the delay each flow equals the uptake recorded `stop_feed_delay`
(resp. `lethal_delay`) days earlier in the lag history. -/
theorem C3_delay_warmup (p : Params) (d : ℕ) :
    (d < stop_feed_delay → to_I2 p d = 0) ∧
    (d < lethal_delay → toxic_deaths p d = 0) ∧
    (stop_feed_delay ≤ d → to_I2 p d = intox_history p (d - stop_feed_delay)) ∧
    (lethal_delay ≤ d → toxic_deaths p d = intox_history p (d - lethal_delay)) := by
  refine ⟨fun h => ?_, fun h => ?_, fun h => ?_, fun h => ?_⟩
  · exact if_neg (not_le.mpr h)
  · exact if_neg (not_le.mpr h)
  · exact if_pos h
  · exact if_pos h

/-- C3 witness: the theorem applied at the default parameters, once inside
each warm-up window (day 1, day 3) and once past each delay (day 6). -/
theorem C3_witness :
    (1 < stop_feed_delay ∧ to_I2 pDemo 1 = 0) ∧
    (3 < lethal_delay ∧ toxic_deaths pDemo 3 = 0) ∧
    (stop_feed_delay ≤ 6 ∧ to_I2 pDemo 6 = intox_history pDemo 4) ∧
    (lethal_delay ≤ 6 ∧ toxic_deaths pDemo 6 = intox_history pDemo 2) :=
  ⟨⟨by norm_num [stop_feed_delay], (C3_delay_warmup pDemo 1).1
      (by norm_num [stop_feed_delay])⟩,
   ⟨by norm_num [lethal_delay], (C3_delay_warmup pDemo 3).2.1
      (by norm_num [lethal_delay])⟩,
   ⟨by norm_num [stop_feed_delay], (C3_delay_warmup pDemo 6).2.2.1
      (by norm_num [stop_feed_delay])⟩,
   ⟨by norm_num [lethal_delay], (C3_delay_warmup pDemo 6).2.2.2
      (by norm_num [lethal_delay])⟩⟩

/-- C5: the environmental factor equals the tent response
`max 0 (1 - |T - 30| / 20) * max 0 (1 - |H - 70| / 40)`, lies in `[0, 1]`,
and the single per-run value `env p` consulted by the integrator is that
factor of the run's constant temperature and humidity (it takes no day
index, so it cannot vary across days). -/
theorem C5_environmental_factor (t h : ℝ) :
    environmental_factor t h =
      max 0 (1 - |t - 30| / 20) * max 0 (1 - |h - 70| / 40) ∧
    0 ≤ environmental_factor t h ∧ environmental_factor t h ≤ 1 ∧
    ∀ p : Params, env p = environmental_factor p.temp p.humidity := by
  refine ⟨rfl, mul_nonneg (le_max_left 0 _) (le_max_left 0 _), ?_, fun p => rfl⟩
  have h1 : max 0 (1 - |t - 30| / 20) ≤ 1 :=
    max_le (by norm_num) (by nlinarith [abs_nonneg (t - 30)])
  have h2 : max 0 (1 - |h - 70| / 40) ≤ 1 :=
    max_le (by norm_num) (by nlinarith [abs_nonneg (h - 70)])
  have h2' : (0 : ℝ) ≤ max 0 (1 - |h - 70| / 40) := le_max_left 0 _
  calc environmental_factor t h
      ≤ 1 * max 0 (1 - |h - 70| / 40) :=
        mul_le_mul_of_nonneg_right h1 h2'
    _ ≤ 1 := by rw [one_mul]; exact h2

/-- C7: determinism. Two runs given identical parameter values (days, initial
population, temperature, humidity, reinfestation rate) return identical
series, element for element. -/
theorem C7_deterministic (p q : Params) (h1 : p.days = q.days)
    (h2 : p.initial_pop = q.initial_pop) (h3 : p.temp = q.temp)
    (h4 : p.humidity = q.humidity)
    (h5 : p.reinfestation_rate = q.reinfestation_rate) :
    run_simulation p = run_simulation q :=
  congrArg run_simulation (Params.ext h1 h2 h3 h4 h5)

/-- C7 witness: two runs built from the same five concrete values agree. -/
theorem C7_witness :
    run_simulation ⟨60, 500, 30, 70, 0.002⟩ =
      run_simulation ⟨60, 500, 30, 70, 0.002⟩ :=
  C7_deterministic ⟨60, 500, 30, 70, 0.002⟩ ⟨60, 500, 30, 70, 0.002⟩
    rfl rfl rfl rfl rfl

/-- C9: for every valid parameter set, `run_simulation` returns one ordered
series per compartment, each of length exactly `days` (day-indexed from 0),
and the active-population series equals `S d + I1 d` at every day `d`. -/
theorem C9_output_shape (p : Params) (hdays : 0 < p.days) :
    (run_simulation p).1.length = p.days ∧
    (run_simulation p).2.1.length = p.days ∧
    (run_simulation p).2.2.1.length = p.days ∧
    (run_simulation p).2.2.2.1.length = p.days ∧
    (run_simulation p).2.2.2.2.length = p.days ∧
    ∀ d : ℕ, d < p.days →
      (run_simulation p).1[d]? = some (S p d + I1 p d) := by
  refine ⟨?_, ?_, ?_, ?_, ?_, fun d hd => ?_⟩
  · simp [run_simulation]
  · simp [run_simulation]
  · simp [run_simulation]
  · simp [run_simulation]
  · simp [run_simulation]
  · simp [run_simulation, N_active, List.getElem?_range, hd]

/-- C9 witness: the theorem applied at the default parameters; day 0 of the
active series is `S 0 + I1 0`. -/
theorem C9_witness :
    0 < pDemo.days ∧
      (run_simulation pDemo).1.length = pDemo.days ∧
      (run_simulation pDemo).1[0]? = some (S pDemo 0 + I1 pDemo 0) :=
  ⟨by norm_num [pDemo],
   (C9_output_shape pDemo (by norm_num [pDemo])).1,
   (C9_output_shape pDemo (by norm_num [pDemo])).2.2.2.2.2 0
     (by norm_num [pDemo])⟩

lemma uptake_zero : uptake 0 = 0 := by
  have h : (0 : ℝ) ^ saturation_alpha = 0 :=
    Real.zero_rpow (by norm_num [saturation_alpha])
  simp [uptake, h]

lemma immigration_zero (p : Params) : immigration p 0 = 0 := by
  simp [immigration]

/-- Once the susceptible compartment hits exactly zero it stays zero: every
flow term of the `S` update is proportional to the previous value. -/
lemma S_zero_forever (p : Params) {e : ℕ} (he : S p e = 0) :
    ∀ f, e ≤ f → S p f = 0 := by
  have haux : ∀ k, S p (e + k) = 0 := by
    intro k
    induction k with
    | zero => exact he
    | succ n ih =>
        rw [← Nat.add_assoc, S_succ, ih, uptake_zero, immigration_zero]
        simp
  intro f hef
  obtain ⟨k, rfl⟩ := Nat.exists_eq_add_of_le hef
  exact haux k

/-- The immigration term the `S` update adds on day `d ≥ 1`. -/
noncomputable def immigration_term (p : Params) (d : ℕ) : ℝ :=
  immigration p (S p (d - 1))

/-- C10: the reinfestation inflow is conditional and proportional, not a
constant inflow: on day `d ≥ 1` it equals `reinfestation_rate * S (d-1)` when
`S (d-1) < 25` and `0` when `S (d-1) ≥ 25`; and once `S e = 0` at some day
`e < d`, the inflow on day `d` is `0` (it can never restart a dead colony). -/
theorem C10_conditional_immigration (p : Params) (d : ℕ) (hd : 1 ≤ d) :
    (S p (d - 1) < 25 →
      immigration_term p d = p.reinfestation_rate * S p (d - 1)) ∧
    (25 ≤ S p (d - 1) → immigration_term p d = 0) ∧
    (∀ e, e < d → S p e = 0 → immigration_term p d = 0) := by
  refine ⟨fun h => ?_, fun h => ?_, fun e he hz => ?_⟩
  · exact if_pos h
  · exact if_neg (not_lt.mpr h)
  · have hS : S p (d - 1) = 0 :=
      S_zero_forever p hz (d - 1) (Nat.le_sub_one_of_lt he)
    rw [immigration_term, hS, immigration_zero]

/-- C10 witness: with initial population 0 the colony is dead at day 0, and
the theorem applied at day 1 yields a zero inflow (both via the proportional
branch, since `0 < 25`, and via the dead-colony branch). -/
theorem C10_witness :
    1 ≤ 1 ∧ S ⟨5, 0, 30, 70, 0.002⟩ 0 < 25 ∧
      immigration_term ⟨5, 0, 30, 70, 0.002⟩ 1 =
        (0.002 : ℝ) * S ⟨5, 0, 30, 70, 0.002⟩ 0 ∧
      (0 : ℕ) < 1 ∧ S ⟨5, 0, 30, 70, 0.002⟩ 0 = 0 ∧
      immigration_term ⟨5, 0, 30, 70, 0.002⟩ 1 = 0 :=
  ⟨le_refl 1, by rw [S_zero]; norm_num,
   (C10_conditional_immigration ⟨5, 0, 30, 70, 0.002⟩ 1 (le_refl 1)).1
     (by rw [S_zero]; norm_num),
   Nat.zero_lt_one, by rw [S_zero],
   (C10_conditional_immigration ⟨5, 0, 30, 70, 0.002⟩ 1 (le_refl 1)).2.2 0
     Nat.zero_lt_one (by rw [S_zero])⟩

/-- Modelled from the spec: the unified engine's Parameters (spec §3) carry
configurable birth/mortality rates, a treatment intensity and an immigration
rate, together with initial values for every compartment; `src/app.py`
hard-codes those rates as constants, so the configurable engine the claim
quantifies over is not in the source. Fields mirror `simulate_population`
with the four hard-coded rate constants lifted into the parameter record. -/
structure GenParams where
  days : ℕ
  S0 : ℝ
  I1_0 : ℝ
  I2_0 : ℝ
  D0 : ℝ
  temp : ℝ
  humidity : ℝ
  g_birth_rate : ℝ
  g_natural_mortality : ℝ
  treatment_intensity : ℝ
  g_reinfestation_rate : ℝ

/-- Modelled from the spec: daily uptake of the configurable engine — the
source's saturating-ingestion policy scaled by the treatment intensity
(spec §4.2: the uptake carries a `treatment_intensity` factor); zero
intensity means no toxicant is deployed. -/
noncomputable def genUptake (g : GenParams) (x : ℝ) : ℝ :=
  g.treatment_intensity * min (exposure_rate * x ^ saturation_alpha) x

/-- Modelled from the spec: susceptible series of the configurable engine,
the source recurrence (src/app.py line 87) with the rates drawn from
`GenParams` instead of the hard-coded constants. -/
noncomputable def genS (g : GenParams) : ℕ → ℝ
  | 0 => g.S0
  | d + 1 =>
      max 0 (genS g d + genS g d * g.g_birth_rate *
          environmental_factor g.temp g.humidity
        - genUptake g (genS g d) - genS g d * g.g_natural_mortality
        + (if genS g d < 25 then g.g_reinfestation_rate * genS g d else 0))

/-- Modelled from the spec: lag history of the configurable engine. -/
noncomputable def gen_intox (g : GenParams) (d : ℕ) : ℝ :=
  if d = 0 then 0 else genUptake g (genS g (d - 1))

/-- Modelled from the spec: delayed stop-feeding flow of the configurable
engine (same fixed delay as src/app.py line 77). -/
noncomputable def gen_to_I2 (g : GenParams) (d : ℕ) : ℝ :=
  if stop_feed_delay ≤ d then gen_intox g (d - stop_feed_delay) else 0

/-- Modelled from the spec: delayed toxic-death flow of the configurable
engine (same fixed delay as src/app.py line 78). -/
noncomputable def gen_toxic (g : GenParams) (d : ℕ) : ℝ :=
  if lethal_delay ≤ d then gen_intox g (d - lethal_delay) else 0

/-- Modelled from the spec: early-intoxicated series of the configurable
engine, started from its configurable initial value. -/
noncomputable def genI1 (g : GenParams) : ℕ → ℝ
  | 0 => g.I1_0
  | d + 1 => max 0 (genI1 g d + gen_intox g (d + 1) - gen_to_I2 g (d + 1))

/-- Modelled from the spec: late-intoxicated series of the configurable
engine. -/
noncomputable def genI2 (g : GenParams) : ℕ → ℝ
  | 0 => g.I2_0
  | d + 1 => max 0 (genI2 g d + gen_to_I2 g (d + 1) - gen_toxic g (d + 1))

/-- Modelled from the spec: cumulative dead series of the configurable
engine. -/
noncomputable def genD (g : GenParams) : ℕ → ℝ
  | 0 => g.D0
  | d + 1 => genD g d + gen_toxic g (d + 1)

lemma gen_intox_of_zero_intensity (g : GenParams)
    (ht : g.treatment_intensity = 0) (d : ℕ) : gen_intox g d = 0 := by
  unfold gen_intox genUptake
  by_cases hd : d = 0 <;> simp [hd, ht]

lemma gen_to_I2_of_zero_intensity (g : GenParams)
    (ht : g.treatment_intensity = 0) (d : ℕ) : gen_to_I2 g d = 0 := by
  unfold gen_to_I2
  by_cases hd : stop_feed_delay ≤ d <;>
    simp [hd, gen_intox_of_zero_intensity g ht]

lemma gen_toxic_of_zero_intensity (g : GenParams)
    (ht : g.treatment_intensity = 0) (d : ℕ) : gen_toxic g d = 0 := by
  unfold gen_toxic
  by_cases hd : lethal_delay ≤ d <;>
    simp [hd, gen_intox_of_zero_intensity g ht]

/-- C6: exact steady state. In the configurable engine, if natural mortality,
birth rate, treatment intensity and immigration are all zero, then every
compartment equals its day-0 initial value at every day (the clamp needs the
initial compartment values to be non-negative, as valid Parameters require). -/
theorem C6_steady_state (g : GenParams) (hb : g.g_birth_rate = 0)
    (hm : g.g_natural_mortality = 0) (ht : g.treatment_intensity = 0)
    (hr : g.g_reinfestation_rate = 0) (hS : 0 ≤ g.S0) (hI1 : 0 ≤ g.I1_0)
    (hI2 : 0 ≤ g.I2_0) (d : ℕ) :
    genS g d = g.S0 ∧ genI1 g d = g.I1_0 ∧ genI2 g d = g.I2_0 ∧
      genD g d = g.D0 := by
  induction d with
  | zero => exact ⟨rfl, rfl, rfl, rfl⟩
  | succ n ih =>
      obtain ⟨ihS, ihI1, ihI2, ihD⟩ := ih
      refine ⟨?_, ?_, ?_, ?_⟩
      · show max 0 (genS g n + genS g n * g.g_birth_rate *
            environmental_factor g.temp g.humidity
          - genUptake g (genS g n) - genS g n * g.g_natural_mortality
          + (if genS g n < 25 then g.g_reinfestation_rate * genS g n else 0))
            = g.S0
        have hu : ∀ x : ℝ, genUptake g x = 0 := fun x => by
          simp [genUptake, ht]
        rw [ihS, hb, hm, hr, hu]
        simp [max_eq_right hS]
      · show max 0 (genI1 g n + gen_intox g (n + 1) - gen_to_I2 g (n + 1))
            = g.I1_0
        rw [ihI1, gen_intox_of_zero_intensity g ht,
          gen_to_I2_of_zero_intensity g ht]
        simp [max_eq_right hI1]
      · show max 0 (genI2 g n + gen_to_I2 g (n + 1) - gen_toxic g (n + 1))
            = g.I2_0
        rw [ihI2, gen_to_I2_of_zero_intensity g ht,
          gen_toxic_of_zero_intensity g ht]
        simp [max_eq_right hI2]
      · show genD g n + gen_toxic g (n + 1) = g.D0
        rw [ihD, gen_toxic_of_zero_intensity g ht]
        simp

/-- C6 witness: the theorem applied to a concrete all-rates-zero scenario
(30 days, initial compartments 500 / 10 / 5 / 2) at day 7. -/
theorem C6_witness :
    (0 : ℝ) = 0 ∧ (0 : ℝ) ≤ 500 ∧ (0 : ℝ) ≤ 10 ∧ (0 : ℝ) ≤ 5 ∧
      (genS ⟨30, 500, 10, 5, 2, 30, 70, 0, 0, 0, 0⟩ 7 = 500 ∧
       genI1 ⟨30, 500, 10, 5, 2, 30, 70, 0, 0, 0, 0⟩ 7 = 10 ∧
       genI2 ⟨30, 500, 10, 5, 2, 30, 70, 0, 0, 0, 0⟩ 7 = 5 ∧
       genD ⟨30, 500, 10, 5, 2, 30, 70, 0, 0, 0, 0⟩ 7 = 2) :=
  ⟨rfl, by norm_num, by norm_num, by norm_num,
    C6_steady_state ⟨30, 500, 10, 5, 2, 30, 70, 0, 0, 0, 0⟩ rfl rfl rfl rfl
      (by norm_num) (by norm_num) (by norm_num) 7⟩

/-- `simulate_population` as the caller observes it (src/app.py lines
35-94), error path included. The compartment arrays `np.zeros(days)` are
allocated for any `days`; the day-0 seeding write `S[0] = initial_pop`
(line 60) is in bounds exactly when `0 < days`, and with `days = 0` it
raises an uncaught IndexError, modelled as `none`. No parameter check of
any kind precedes the run. -/
noncomputable def simulate_population (p : Params) :
    Option (List ℝ × List ℝ × List ℝ × List ℝ × List ℝ) :=
  if 0 < p.days then some (run_simulation p) else none

/-- C8 counterexample: the engine does not reject invalid inputs before the
run. With temperature 100 and humidity 200 (far outside the declared
15-40 / 30-90 domain) it runs to completion and returns a length-5
susceptible series whose day 0 holds the initial population, and with the
negative initial population -3 it likewise succeeds, returning a series
that starts at the unvalidated value -3 — in both cases it computes a full
result instead of failing fast with an InvalidParameter error. -/
theorem C8_counterexample :
    simulate_population ⟨5, 500, 100, 200, 0.002⟩ =
      some (run_simulation ⟨5, 500, 100, 200, 0.002⟩) ∧
    (run_simulation ⟨5, 500, 100, 200, 0.002⟩).2.1.length = 5 ∧
    (run_simulation ⟨5, 500, 100, 200, 0.002⟩).2.1[0]? = some 500 ∧
    simulate_population ⟨5, -3, 30, 70, 0.002⟩ =
      some (run_simulation ⟨5, -3, 30, 70, 0.002⟩) ∧
    (run_simulation ⟨5, -3, 30, 70, 0.002⟩).2.1[0]? = some ((-3 : ℝ)) := by
  refine ⟨?_, ?_, ?_, ?_, ?_⟩
  · simp [simulate_population]
  · simp [run_simulation]
  · simp [run_simulation, List.getElem?_range, S_zero]
  · simp [simulate_population]
  · simp [run_simulation, List.getElem?_range, S_zero]

/-- C8 (amended): `simulate_population` performs no parameter validation and
has no InvalidParameter error path. For every positive horizon the run
succeeds and returns five series of length exactly `days`, whatever the
other inputs (out-of-domain temperature/humidity and negative initial
populations are processed like any other values). Horizon 0 is not rejected
before the run either: allocation succeeds and the day-0 seeding write
`S[0]` on the empty arrays raises an uncaught IndexError mid-setup
(result `none`) — a crash during setup, not a fail-fast validation. -/
theorem C8_no_validation (p : Params) :
    (0 < p.days →
      simulate_population p = some (run_simulation p) ∧
      (run_simulation p).1.length = p.days ∧
      (run_simulation p).2.1.length = p.days ∧
      (run_simulation p).2.2.1.length = p.days ∧
      (run_simulation p).2.2.2.1.length = p.days ∧
      (run_simulation p).2.2.2.2.length = p.days) ∧
    (p.days = 0 → simulate_population p = none) := by
  constructor
  · intro hdays
    refine ⟨?_, ?_, ?_, ?_, ?_, ?_⟩
    · simp [simulate_population, hdays]
    · simp [run_simulation]
    · simp [run_simulation]
    · simp [run_simulation]
    · simp [run_simulation]
    · simp [run_simulation]
  · intro hzero
    simp [simulate_population, hzero]

/-- C8 witness: the theorem applied once at a positive-horizon input with
out-of-domain temperature/humidity (hypothesis `0 < days` discharged) and
once at the horizon-0 input (hypothesis `days = 0` discharged). -/
theorem C8_witness :
    (0 < (5 : ℕ) ∧
      simulate_population ⟨5, 500, 100, 200, 0.002⟩ =
        some (run_simulation ⟨5, 500, 100, 200, 0.002⟩)) ∧
    ((⟨0, 500, 30, 70, 0.002⟩ : Params).days = 0 ∧
      simulate_population ⟨0, 500, 30, 70, 0.002⟩ = none) :=
  ⟨⟨by norm_num,
    ((C8_no_validation ⟨5, 500, 100, 200, 0.002⟩).1 (by norm_num)).1⟩,
   ⟨rfl, (C8_no_validation ⟨0, 500, 30, 70, 0.002⟩).2 rfl⟩⟩

lemma uptake_of_one_le {x : ℝ} (hx : 1 ≤ x) :
    uptake x = exposure_rate * x ^ saturation_alpha := by
  have hx0 : (0 : ℝ) ≤ x := le_trans zero_le_one hx
  apply min_eq_left
  have h1 : exposure_rate * x ^ saturation_alpha ≤ x ^ saturation_alpha :=
    mul_le_of_le_one_left (Real.rpow_nonneg hx0 _) (by norm_num [exposure_rate])
  have h2 : x ^ saturation_alpha ≤ x ^ (1 : ℝ) :=
    Real.rpow_le_rpow_of_exponent_le hx (by norm_num [saturation_alpha])
  rw [Real.rpow_one] at h2
  exact le_trans h1 h2

lemma min_mul_const_right {c x : ℝ} (hx : 0 ≤ x) :
    min (c * x) x = min c 1 * x := by
  rcases le_total c 1 with h | h
  · rw [min_eq_left (by nlinarith), min_eq_left h]
  · rw [min_eq_right (by nlinarith), min_eq_right h, one_mul]

/-- From the spec's words (§4.2): an access fraction that is a monotonic step
function of population size, larger colonies exposing a smaller per-capita
contact fraction. Any step function (piecewise constant over finitely many
intervals covering `[0, ∞)`) is constant on some non-degenerate interval
lying in `[1, ∞)`, which is all the refutation needs. -/
def IsStepAccess (af : ℝ → ℝ) : Prop :=
  Antitone af ∧ ∃ a b : ℝ, 1 ≤ a ∧ a < b ∧
    ∀ x : ℝ, a ≤ x → x ≤ b → af x = af a

/-- From the spec's words (§4.2): an activation curve that ramps linearly
from a baseline value to a plateau over a fixed number of days. -/
def IsLinearRampActivation (act : ℕ → ℝ) : Prop :=
  ∃ base plateau : ℝ, ∃ T : ℕ, 0 < T ∧ base ≤ plateau ∧
    ∀ d : ℕ, act d = base + (plateau - base) * ((min d T : ℕ) : ℝ) / (T : ℝ)

/-- The claim's saturating/access-limited uptake law, stated over the
source's series: some step access fraction, treatment intensity and linear
activation ramp reproduce the engine's daily uptake at every valid
parameter set and every simulated day `d ≥ 1`. -/
def ClaimC4 : Prop :=
  ∃ af : ℝ → ℝ, ∃ ti : ℝ, ∃ act : ℕ → ℝ,
    IsStepAccess af ∧ IsLinearRampActivation act ∧
    ∀ p : Params, 0 < p.days → 0 ≤ p.initial_pop →
      ∀ d : ℕ, 1 ≤ d → d < p.days →
        intox_history p d =
          min (af (S p (d - 1)) * S p (d - 1)) (S p (d - 1)) * ti * act d

/-- C4 counterexample: no step access fraction, treatment intensity and
activation ramp can reproduce the engine's uptake. On any interval
`[a, b] ⊆ [1, ∞)` where the access fraction is constant, the claimed law is
linear in the previous population, while the engine's uptake
`0.05 * x ^ 0.75` is strictly concave there: matching both endpoints of the
interval (initial populations `a` and `b`, day 1) forces `a = b`. -/
theorem C4_counterexample : ¬ ClaimC4 := by
  rintro ⟨af, ti, act, ⟨-, a, b, ha1, hab, hconst⟩, -, heq⟩
  have ha0 : (0 : ℝ) < a := lt_of_lt_of_le one_pos ha1
  have hb1 : (1 : ℝ) ≤ b := le_of_lt (lt_of_le_of_lt ha1 hab)
  have hb0 : (0 : ℝ) < b := lt_of_lt_of_le one_pos hb1
  have hA : uptake a = min (af a * a) a * ti * act 1 :=
    heq ⟨2, a, 30, 70, 0⟩ (by norm_num) (le_of_lt ha0) 1 (le_refl 1)
      (by norm_num)
  have hB : uptake b = min (af b * b) b * ti * act 1 :=
    heq ⟨2, b, 30, 70, 0⟩ (by norm_num) (le_of_lt hb0) 1 (le_refl 1)
      (by norm_num)
  rw [hconst b (le_of_lt hab) (le_refl b)] at hB
  rw [uptake_of_one_le ha1, min_mul_const_right (le_of_lt ha0)] at hA
  rw [uptake_of_one_le hb1, min_mul_const_right (le_of_lt hb0)] at hB
  have key : a ^ saturation_alpha * b = b ^ saturation_alpha * a := by
    have h3 : exposure_rate * (a ^ saturation_alpha * b) =
        exposure_rate * (b ^ saturation_alpha * a) := by
      linear_combination b * hA - a * hB
    exact mul_left_cancel₀ (by norm_num [exposure_rate]) h3
  have hr1 : 1 < b / a := (one_lt_div ha0).mpr hab
  have hb' : b / a * a = b := by field_simp
  have hrs : (b / a) ^ saturation_alpha * a ^ saturation_alpha =
      b ^ saturation_alpha := by
    rw [← Real.mul_rpow (by positivity) (le_of_lt ha0), hb']
  have h5 : b / a * (a ^ saturation_alpha * a) =
      (b / a) ^ saturation_alpha * (a ^ saturation_alpha * a) := by
    have hkey2 := key
    rw [← hrs] at hkey2
    linear_combination hkey2 + a ^ saturation_alpha * hb'
  have hr_eq : b / a = (b / a) ^ saturation_alpha :=
    mul_right_cancel₀ (by positivity) h5
  have hlt : (b / a) ^ saturation_alpha < b / a := by
    have h6 := Real.rpow_lt_rpow_of_exponent_lt hr1
      (by norm_num [saturation_alpha] : saturation_alpha < 1)
    rwa [Real.rpow_one] at h6
  linarith

/-- C4 (amended): the engine's daily uptake on day `d ≥ 1` is
`min (exposure_rate * S (d-1) ^ saturation_alpha) (S (d-1))` with
`exposure_rate = 0.05` and `saturation_alpha = 0.75`; there is no
treatment-intensity factor and no activation ramp, and whenever
`S (d-1) ≥ 1` the effective per-capita access fraction is the continuous,
strictly decreasing power law `exposure_rate * S (d-1) ^ (-1/4)` — not a
step function. -/
theorem C4_uptake_formula (p : Params) (d : ℕ) (hd : 1 ≤ d) :
    intox_history p d =
      min (exposure_rate * S p (d - 1) ^ saturation_alpha) (S p (d - 1)) ∧
    (1 ≤ S p (d - 1) → intox_history p d =
      exposure_rate * S p (d - 1) ^ (-(1 / 4) : ℝ) * S p (d - 1)) := by
  have hd0 : d ≠ 0 := by omega
  have h1 : intox_history p d = uptake (S p (d - 1)) := by
    simp [intox_history, hd0]
  constructor
  · rw [h1, uptake]
  · intro hS1
    have hx0 : (0 : ℝ) < S p (d - 1) := lt_of_lt_of_le one_pos hS1
    rw [h1, uptake_of_one_le hS1]
    have h2 : S p (d - 1) ^ (-(1 / 4) : ℝ) * S p (d - 1) ^ (1 : ℝ) =
        S p (d - 1) ^ saturation_alpha := by
      rw [← Real.rpow_add hx0]
      norm_num [saturation_alpha]
    rw [Real.rpow_one] at h2
    rw [← h2]
    ring

/-- C4 witness: the amended formula applied at the default parameters,
day 1. -/
theorem C4_witness :
    1 ≤ 1 ∧ intox_history pDemo 1 =
      min (exposure_rate * S pDemo 0 ^ saturation_alpha) (S pDemo 0) :=
  ⟨le_refl 1, (C4_uptake_formula pDemo 1 (le_refl 1)).1⟩
